import Mathlib

/-!
Verification of the quip push-to-talk voice core: a shallow embedding of
`src/desktop/transcription.py`, `src/desktop/voice_recorder.py` and
`src/desktop/voice/voice_handler.py`, followed by theorems about the
gesture state machine, the recorder and the transcription service.

Modelling conventions:
* Timestamps (Python `time.time()` floats) are `Int` values in abstract
  units; every time-dependent operation takes the current time `now` as a
  parameter, exactly where the Python reads the clock.
* Python truthiness tests on optional timestamps (`if not self.tab_press_time`)
  are modelled by `truthy`, which is false for `none` and for `some 0`
  (a float `0.0` is falsy in Python).
* Side effects are explicit: every operation returns its successor state
  together with the list of callback invocations / observable effects it
  performs, in order.  An event in the list means "the corresponding
  guarded `if self.on_x: self.on_x(...)` call fires when the callback is
  registered"; the UI-facing callbacks of the handler are wired by the
  application at startup.
* Background threads (recorder loading, service loading, engine
  readiness, transcription work) are modelled by explicit completion
  operations and by an `Env` record carrying the outcome of each external
  interaction (module import success, audio backend exceptions, the
  engine's transcription result).
-/

namespace Quip

/-! ### TranscriptionService (src/desktop/transcription.py)

`TranscriptionService.transcribe_async` either reports
"Transcription engine not initialized" through the error callback, or
launches `_transcribe_audio` on a background thread.  The three optional
callbacks are modelled by registration flags; the engine
(`engine.transcribe`, which may raise) is a function of the samples and
the sample rate into `Except`. -/

/-- A callback invocation made by the transcription service. -/
inductive TSEv where
  | start : TSEv
  | complete : String → TSEv
  | error : String → TSEv
deriving DecidableEq

/-- Which of the service's three optional callbacks are registered. -/
structure TSCbs where
  hasStart : Bool
  hasComplete : Bool
  hasError : Bool
deriving DecidableEq

/-- `TranscriptionService._transcribe_audio`: fires the start callback,
runs the engine, then fires exactly one of complete / error; an engine
exception is caught and routed to the error callback. -/
def transcribe_audio (cbs : TSCbs) (res : Except String String) : List TSEv :=
  match res with
  | Except.ok t =>
      (if cbs.hasStart then [TSEv.start] else []) ++
      (if cbs.hasComplete then [TSEv.complete t] else [])
  | Except.error e =>
      (if cbs.hasStart then [TSEv.start] else []) ++
      (if cbs.hasError then [TSEv.error e] else [])

/-- `TranscriptionService.transcribe_async`.  The first component records
whether a background transcription thread was launched; the second lists
the callback invocations this request eventually produces. -/
def transcribe_async (isInit : Bool) (cbs : TSCbs)
    (engine : List Int → Int → Except String String) (audio : List Int)
    (sample_rate : Int) : Bool × List TSEv :=
  if isInit = false then
    (false,
      if cbs.hasError then [TSEv.error "Transcription engine not initialized"]
      else [])
  else
    (true, transcribe_audio cbs (engine audio sample_rate))

/-- Terminal callbacks of a transcription request (complete or error). -/
def TSEv.terminal : TSEv → Bool
  | TSEv.start => false
  | TSEv.complete _ => true
  | TSEv.error _ => true

/-! ### VoiceRecorder (src/desktop/voice_recorder.py)

The recorder owns a buffer of sample chunks (`self.audio_data`, a list of
numpy chunks appended by the capture thread).  `raises` models an
exception thrown while spawning the capture thread or running the start
callback — the Python `except` branch then resets `is_recording` and
returns `False`; the buffer was already cleared at that point. -/

/-- An observable effect of the voice handler / recorder layer. -/
inductive Ev where
  | play_sound : Bool → Ev
  | on_recording_start : Ev
  | on_recording_stop : Ev
  | on_recording_tail_start : Ev
  | on_transcription_start : Ev
  | on_transcription_complete : String → Ev
  | on_transcription_error : String → Ev
  | rec_cb_start : Ev
  | rec_cb_stop : Ev
deriving DecidableEq

/-- State of `VoiceRecorder`: the recording flag and the chunk buffer. -/
structure VoiceRecorder where
  is_recording : Bool
  audio_data : List (List Int)
deriving DecidableEq

/-- `VoiceRecorder.start_recording`: refuses while already recording,
otherwise clears the buffer, raises the flag, spawns the capture thread
and fires the recorder's start callback; an exception lowers the flag
again and yields `False`. -/
def VoiceRecorder.start_recording (raises : Bool) (r : VoiceRecorder) :
    VoiceRecorder × Bool × List Ev :=
  if r.is_recording then (r, false, [])
  else if raises then ({ is_recording := false, audio_data := [] }, false, [])
  else ({ is_recording := true, audio_data := [] }, true, [Ev.rec_cb_start])

/-- `VoiceRecorder.stop_recording`: returns `none` when not recording,
otherwise lowers the flag, joins the capture thread, fires the stop
callback and hands back the concatenation of the chunks (`np.concatenate`
then `flatten`), or `none` when no chunk was captured.  The chunk buffer
itself is left in place. -/
def VoiceRecorder.stop_recording (r : VoiceRecorder) :
    VoiceRecorder × Option (List Int) × List Ev :=
  if r.is_recording = false then (r, none, [])
  else
    ({ r with is_recording := false },
     if r.audio_data = [] then none else some r.audio_data.flatten,
     [Ev.rec_cb_stop])

/-! ### VoiceHandler (src/desktop/voice/voice_handler.py) -/

/-- The slice of `TranscriptionService` state the handler observes. -/
structure TranscriptionService where
  isInit : Bool
deriving DecidableEq

/-- Gesture and component state of `VoiceHandler`. -/
structure VoiceHandler where
  tab_press_time : Option Int
  recording_mode : Bool
  tab_physically_pressed : Bool
  tab_consumed_as_hold : Bool
  tab_release_time : Option Int
  recording_tail_active : Bool
  voice_recorder : Option VoiceRecorder
  voice_recorder_loading : Bool
  voice_recorder_failed : Bool
  transcription_service : Option TranscriptionService
  transcription_loading : Bool
  transcription_failed : Bool
deriving DecidableEq

/-- The configuration scalars the handler reads at construction:
`voice_hold_threshold_ms`, the fixed 100 ms release debounce, and
`voice_recording_tail_ms`. -/
structure VHConfig where
  tab_hold_threshold : Int
  release_debounce_time : Int
  recording_tail_time : Int
deriving DecidableEq

/-- Outcomes of the external interactions a single handler call can make:
whether importing/constructing `VoiceRecorder` succeeds, whether the
audio backend raises while starting capture, and the engine's
transcription behaviour. -/
structure Env where
  recorder_load_ok : Bool
  recorder_start_raises : Bool
  engine : List Int → Int → Except String String

/-- Python truthiness of an optional timestamp (`0.0` is falsy). -/
def truthy : Option Int → Bool
  | none => false
  | some t => t != 0

/-- `VoiceHandler.__init__`: all gesture flags down, no components yet;
`_start_transcription_loading` has set `transcription_loading`. -/
def VoiceHandler.init : VoiceHandler :=
  { tab_press_time := none
    recording_mode := false
    tab_physically_pressed := false
    tab_consumed_as_hold := false
    tab_release_time := none
    recording_tail_active := false
    voice_recorder := none
    voice_recorder_loading := false
    voice_recorder_failed := false
    transcription_service := none
    transcription_loading := true
    transcription_failed := false }

/-- How the handler's internal transcription-service callbacks relay a
service event outward: `_on_transcription_start_internal` only logs,
while complete/error forward to the UI-facing callbacks. -/
def relay_ts_event : TSEv → List Ev
  | TSEv.start => []
  | TSEv.complete t => [Ev.on_transcription_complete t]
  | TSEv.error m => [Ev.on_transcription_error m]

/-- `VoiceHandler._ensure_voice_recorder_loaded`: already loaded wins;
loading or failed yields `False`; otherwise a synchronous load is tried,
whose success is `env.recorder_load_ok`. -/
def VoiceHandler.ensure_voice_recorder_loaded (env : Env) (s : VoiceHandler) :
    VoiceHandler × Bool :=
  if s.voice_recorder.isSome then (s, true)
  else if s.voice_recorder_loading then (s, false)
  else if s.voice_recorder_failed then (s, false)
  else if env.recorder_load_ok then
    ({ s with voice_recorder := some { is_recording := false, audio_data := [] } },
     true)
  else
    ({ s with voice_recorder_failed := true }, false)

/-- `VoiceHandler.stop_voice_recording`: lowers `recording_mode`, plays the
stop sound, stops the recorder, and routes the captured audio to the
transcription service or reports why it cannot; with no audio it fires
the plain `on_recording_stop` notification. -/
def VoiceHandler.stop_voice_recording (env : Env) (s : VoiceHandler) :
    VoiceHandler × List Ev :=
  if s.recording_mode = false then (s, [])
  else
    match s.voice_recorder with
    | none =>
        -- no recorder: `audio_data` stays `None`, so only the plain
        -- stop notification fires after the stop sound
        ({ s with recording_mode := false },
         [Ev.play_sound false, Ev.on_recording_stop])
    | some r =>
        let res := VoiceRecorder.stop_recording r
        let s2 := { s with recording_mode := false, voice_recorder := some res.1 }
        match res.2.1 with
        | some a =>
            if a ≠ [] then
              match s.transcription_service with
              | some ts =>
                  let tsRun := transcribe_async ts.isInit
                    { hasStart := true, hasComplete := true, hasError := true }
                    env.engine a 16000
                  (s2, Ev.play_sound false :: res.2.2 ++
                        [Ev.on_transcription_start] ++
                        tsRun.2.flatMap relay_ts_event)
              | none =>
                  if s.transcription_loading then
                    (s2, Ev.play_sound false :: res.2.2 ++
                      [Ev.on_transcription_error
                        "Transcription service still loading, please try again in a moment"])
                  else
                    (s2, Ev.play_sound false :: res.2.2 ++
                      [Ev.on_transcription_error "Transcription service unavailable"])
            else
              (s2, Ev.play_sound false :: res.2.2 ++ [Ev.on_recording_stop])
        | none =>
            (s2, Ev.play_sound false :: res.2.2 ++ [Ev.on_recording_stop])

/-- `VoiceHandler.start_voice_recording`: a no-op returning `True` while
already recording; otherwise raises `recording_mode`, plays the start
sound, fires `on_recording_start`, then loads and starts the recorder —
any failure unwinds through `stop_voice_recording` and returns `False`. -/
def VoiceHandler.start_voice_recording (env : Env) (s : VoiceHandler) :
    VoiceHandler × Bool × List Ev :=
  if s.recording_mode then (s, true, [])
  else
    let s1 := { s with recording_mode := true }
    let headEv := [Ev.play_sound true, Ev.on_recording_start]
    let ens := VoiceHandler.ensure_voice_recorder_loaded env s1
    if ens.2 = false then
      let res := VoiceHandler.stop_voice_recording env ens.1
      (res.1, false, headEv ++ res.2)
    else
      match ens.1.voice_recorder with
      | some r =>
          let rres := VoiceRecorder.start_recording env.recorder_start_raises r
          let s2 := { ens.1 with voice_recorder := some rres.1 }
          if rres.2.1 = false then
            let sres := VoiceHandler.stop_voice_recording env s2
            (sres.1, false, headEv ++ rres.2.2 ++ sres.2)
          else
            (s2, true, headEv ++ rres.2.2)
      | none =>
          -- dead branch: ensure_voice_recorder_loaded answers true only
          -- with a recorder present
          (ens.1, false, headEv)

/-- `VoiceHandler.on_tab_press`: a press within the release-debounce
window continues the hold (cancelling a pending tail); a first physical
press starts timing; a press while already physically down is a keyboard
repeat and is ignored. -/
def VoiceHandler.on_tab_press (cfg : VHConfig) (now : Int) (s : VoiceHandler) :
    VoiceHandler × (Bool × String) × List Ev :=
  if truthy s.tab_release_time ∧
      now - s.tab_release_time.getD 0 < cfg.release_debounce_time then
    let s1 := { s with tab_physically_pressed := true }
    if s1.recording_tail_active then
      ({ s1 with recording_tail_active := false }, (true, "continue_hold"),
       [Ev.on_recording_start])
    else
      (s1, (true, "continue_hold"), [])
  else if s.tab_physically_pressed = false then
    ({ s with
        tab_press_time := some now
        tab_physically_pressed := true
        tab_consumed_as_hold := false
        tab_release_time := none },
     (true, "start_timing"), [])
  else
    (s, (true, "ignore_repeat"), [])

/-- `VoiceHandler.on_tab_release`: records the release time for
debouncing, or reports `already_released`. -/
def VoiceHandler.on_tab_release (now : Int) (s : VoiceHandler) :
    VoiceHandler × (Bool × String) × List Ev :=
  if s.tab_physically_pressed = false then
    (s, (true, "already_released"), [])
  else
    ({ s with tab_physically_pressed := false, tab_release_time := some now },
     (true, "process_release"), [])

/-- `VoiceHandler.check_tab_hold` (the hold-threshold timer): if the key
is still down and recording has not begun, consume the press as a hold
and start recording. -/
def VoiceHandler.check_tab_hold (env : Env) (s : VoiceHandler) :
    VoiceHandler × List Ev :=
  if s.tab_physically_pressed = false ∨ s.recording_mode then (s, [])
  else
    let res := VoiceHandler.start_voice_recording env
      { s with tab_consumed_as_hold := true }
    (res.1, res.2.2)

/-- `VoiceHandler.process_tab_release_after_debounce` (the debounce
timer): if the key is still up and recording, enter the tail period. -/
def VoiceHandler.process_tab_release_after_debounce (s : VoiceHandler) :
    VoiceHandler × List Ev :=
  if s.tab_physically_pressed = false ∧ s.recording_mode then
    ({ s with recording_tail_active := true }, [Ev.on_recording_tail_start])
  else
    (s, [])

/-- `VoiceHandler._process_final_tab_release`: stop recording if a press
time exists and recording is active (the elapsed duration is only
logged). -/
def VoiceHandler.process_final_tab_release (env : Env) (s : VoiceHandler) :
    VoiceHandler × List Ev :=
  if truthy s.tab_press_time = false then (s, [])
  else if s.recording_mode then VoiceHandler.stop_voice_recording env s
  else (s, [])

/-- `VoiceHandler.stop_recording_tail` (the tail timer): still released →
actually stop; re-pressed → cancel the tail and resume recording
visuals. -/
def VoiceHandler.stop_recording_tail (env : Env) (s : VoiceHandler) :
    VoiceHandler × List Ev :=
  if s.recording_tail_active ∧ s.tab_physically_pressed = false then
    VoiceHandler.process_final_tab_release env
      { s with recording_tail_active := false }
  else if s.tab_physically_pressed then
    ({ s with recording_tail_active := false }, [Ev.on_recording_start])
  else
    (s, [])

/-- `VoiceHandler.process_immediate_tab_release`: no press time recorded →
`no_press_time`; recording → stop it; an unconsumed press shorter than
the hold threshold → `insert_tab`; otherwise `already_handled`. -/
def VoiceHandler.process_immediate_tab_release (cfg : VHConfig) (env : Env)
    (now : Int) (s : VoiceHandler) : VoiceHandler × String × List Ev :=
  if truthy s.tab_press_time = false then (s, "no_press_time", [])
  else
    let hold_duration := now - s.tab_press_time.getD 0
    if s.recording_mode then
      let res := VoiceHandler.stop_voice_recording env s
      (res.1, "stop_recording", res.2)
    else if s.tab_consumed_as_hold = false ∧
        hold_duration < cfg.tab_hold_threshold then
      (s, "insert_tab", [])
    else
      (s, "already_handled", [])

/-- `VoiceHandler.start_voice_recorder_background_loading`: raise the
loading flag unless a recorder is present, loading, or failed. -/
def VoiceHandler.start_voice_recorder_background_loading (s : VoiceHandler) :
    VoiceHandler :=
  if s.voice_recorder.isSome ∨ s.voice_recorder_loading ∨ s.voice_recorder_failed
  then s
  else { s with voice_recorder_loading := true }

/-- Completion of the recorder background-loading thread (runs only while
the loading flag is up): install a fresh recorder or record the failure. -/
def VoiceHandler.voice_recorder_load_finish (ok : Bool) (s : VoiceHandler) :
    VoiceHandler :=
  if s.voice_recorder_loading then
    if ok then
      { s with
          voice_recorder := some { is_recording := false, audio_data := [] }
          voice_recorder_loading := false }
    else
      { s with voice_recorder_loading := false, voice_recorder_failed := true }
  else s

/-- Completion of `_start_transcription_loading`'s background thread
(runs only while the loading flag is up): install the service — whose
engine is still loading its model — or record the failure. -/
def VoiceHandler.transcription_load_finish (ok : Bool) (s : VoiceHandler) :
    VoiceHandler :=
  if s.transcription_loading then
    if ok then
      { s with
          transcription_service := some { isInit := false }
          transcription_loading := false }
    else
      { s with transcription_loading := false, transcription_failed := true }
  else s

/-- Completion of the service's background engine setup: record the
engine's readiness. -/
def VoiceHandler.transcription_engine_ready (ok : Bool) (s : VoiceHandler) :
    VoiceHandler :=
  match s.transcription_service with
  | some _ => { s with transcription_service := some { isInit := ok } }
  | none => s

/-- `VoiceHandler.is_transcription_ready`: presence of the service object. -/
def VoiceHandler.is_transcription_ready (s : VoiceHandler) : Bool :=
  s.transcription_service.isSome

/-- `VoiceHandler.get_transcription_status`. -/
def VoiceHandler.get_transcription_status (s : VoiceHandler) : String :=
  if s.transcription_service.isSome then "ready"
  else if s.transcription_loading then "loading"
  else if s.transcription_failed then "failed"
  else "not_started"

/-- States of the handler reachable from construction by any finite
sequence of entry-point calls, timer firings and background-thread
completions, at arbitrary times and with arbitrary external outcomes. -/
inductive Reachable (cfg : VHConfig) : VoiceHandler → Prop where
  | init : Reachable cfg VoiceHandler.init
  | tab_press {s : VoiceHandler} (now : Int) :
      Reachable cfg s → Reachable cfg (VoiceHandler.on_tab_press cfg now s).1
  | tab_release {s : VoiceHandler} (now : Int) :
      Reachable cfg s → Reachable cfg (VoiceHandler.on_tab_release now s).1
  | hold_check {s : VoiceHandler} (env : Env) :
      Reachable cfg s → Reachable cfg (VoiceHandler.check_tab_hold env s).1
  | debounce {s : VoiceHandler} :
      Reachable cfg s →
      Reachable cfg (VoiceHandler.process_tab_release_after_debounce s).1
  | tail_timer {s : VoiceHandler} (env : Env) :
      Reachable cfg s → Reachable cfg (VoiceHandler.stop_recording_tail env s).1
  | immediate {s : VoiceHandler} (env : Env) (now : Int) :
      Reachable cfg s →
      Reachable cfg (VoiceHandler.process_immediate_tab_release cfg env now s).1
  | start_rec {s : VoiceHandler} (env : Env) :
      Reachable cfg s →
      Reachable cfg (VoiceHandler.start_voice_recording env s).1
  | stop_rec {s : VoiceHandler} (env : Env) :
      Reachable cfg s →
      Reachable cfg (VoiceHandler.stop_voice_recording env s).1
  | bg_load_begin {s : VoiceHandler} :
      Reachable cfg s →
      Reachable cfg (VoiceHandler.start_voice_recorder_background_loading s)
  | bg_load_end {s : VoiceHandler} (ok : Bool) :
      Reachable cfg s →
      Reachable cfg (VoiceHandler.voice_recorder_load_finish ok s)
  | ts_load_end {s : VoiceHandler} (ok : Bool) :
      Reachable cfg s →
      Reachable cfg (VoiceHandler.transcription_load_finish ok s)
  | ts_engine_end {s : VoiceHandler} (ok : Bool) :
      Reachable cfg s →
      Reachable cfg (VoiceHandler.transcription_engine_ready ok s)

/-- While the handler is not in recording mode, a loaded recorder is not
capturing: the orchestrator is the recorder's only driver. -/
def recorder_idle (s : VoiceHandler) : Prop :=
  s.recording_mode = false → ∀ r, s.voice_recorder = some r → r.is_recording = false

/-! ### Concrete instances used by witnesses and counterexamples -/

/-- Default configuration: 200 ms hold threshold, 100 ms debounce,
300 ms tail. -/
def cfg0 : VHConfig :=
  { tab_hold_threshold := 200, release_debounce_time := 100,
    recording_tail_time := 300 }

/-- A benign environment: the recorder loads and starts, the engine
answers. -/
def env0 : Env :=
  { recorder_load_ok := true, recorder_start_raises := false,
    engine := fun _ _ => Except.ok "hello" }

/-- An environment in which loading the voice recorder fails. -/
def envFail : Env :=
  { recorder_load_ok := false, recorder_start_raises := false,
    engine := fun _ _ => Except.ok "hello" }

/-- Gesture trace: press at t=10. -/
def c1_press : VoiceHandler := (VoiceHandler.on_tab_press cfg0 10 VoiceHandler.init).1

/-- Gesture trace: the hold-threshold timer fires while still pressed;
recording starts. -/
def c1_hold : VoiceHandler := (VoiceHandler.check_tab_hold env0 c1_press).1

/-- Gesture trace: release at t=1000. -/
def c1_release : VoiceHandler := (VoiceHandler.on_tab_release 1000 c1_hold).1

/-- Gesture trace: the debounce timer fires, still released: tail starts. -/
def c1_debounce : VoiceHandler :=
  (VoiceHandler.process_tab_release_after_debounce c1_release).1

/-- Gesture trace: re-press at t=2000, after the 100-unit debounce window
but before the tail timer fired. -/
def c1_repress : VoiceHandler := (VoiceHandler.on_tab_press cfg0 2000 c1_debounce).1

/-- Gesture trace: press at t=10. -/
def c6_press : VoiceHandler := (VoiceHandler.on_tab_press cfg0 10 VoiceHandler.init).1

/-- Gesture trace: release at t=50. -/
def c6_release : VoiceHandler := (VoiceHandler.on_tab_release 50 c6_press).1

/-- Gesture trace: re-press at t=90, inside the debounce window, so the
key is physically down again while `tab_release_time` is still set. -/
def c6_repress : VoiceHandler := (VoiceHandler.on_tab_press cfg0 90 c6_release).1

/-- A fresh handler whose press time was recorded at t=10. -/
def tap_state : VoiceHandler := { VoiceHandler.init with tab_press_time := some 10 }

/-- A fresh handler with the key physically down and no release recorded. -/
def pressed_state : VoiceHandler :=
  { VoiceHandler.init with tab_physically_pressed := true }

/-- A fresh handler already in recording mode. -/
def recording_state : VoiceHandler :=
  { VoiceHandler.init with recording_mode := true }

/-- A handler that is recording with captured audio, whose transcription
service object exists but whose engine has not finished loading. -/
def not_ready_state : VoiceHandler :=
  { VoiceHandler.init with
      recording_mode := true
      voice_recorder := some { is_recording := true, audio_data := [[5, 6]] }
      transcription_service := some { isInit := false }
      transcription_loading := false }

/-! ### Helper lemmas -/

theorem VoiceRecorder.stop_recording_stopped (r : VoiceRecorder) :
    (VoiceRecorder.stop_recording r).1.is_recording = false := by
  unfold VoiceRecorder.stop_recording
  split <;> simp_all

theorem VoiceRecorder.start_recording_fail_state (raises : Bool) (r : VoiceRecorder)
    (hr : r.is_recording = false)
    (hf : (VoiceRecorder.start_recording raises r).2.1 = false) :
    (VoiceRecorder.start_recording raises r).1 =
      { is_recording := false, audio_data := [] } := by
  unfold VoiceRecorder.start_recording at *
  repeat' split at hf
  all_goals simp_all

theorem stop_voice_recording_tail_frame (env : Env) (s : VoiceHandler) :
    (VoiceHandler.stop_voice_recording env s).1.recording_tail_active =
      s.recording_tail_active := by
  unfold VoiceHandler.stop_voice_recording
  cases hv : s.voice_recorder <;> simp only [hv] <;> repeat' split
  all_goals simp

theorem ensure_frame (env : Env) (s : VoiceHandler) :
    (VoiceHandler.ensure_voice_recorder_loaded env s).1.recording_tail_active =
      s.recording_tail_active ∧
    (VoiceHandler.ensure_voice_recorder_loaded env s).1.recording_mode =
      s.recording_mode := by
  unfold VoiceHandler.ensure_voice_recorder_loaded
  repeat' split
  all_goals simp

theorem ensure_false_none (env : Env) (s : VoiceHandler)
    (h : (VoiceHandler.ensure_voice_recorder_loaded env s).2 = false) :
    (VoiceHandler.ensure_voice_recorder_loaded env s).1.voice_recorder = none := by
  unfold VoiceHandler.ensure_voice_recorder_loaded at *
  repeat' split at h
  all_goals simp_all [Option.not_isSome_iff_eq_none]

theorem ensure_some_cases (env : Env) (s : VoiceHandler) (r : VoiceRecorder)
    (h : (VoiceHandler.ensure_voice_recorder_loaded env s).1.voice_recorder = some r) :
    s.voice_recorder = some r ∨ r = { is_recording := false, audio_data := [] } := by
  unfold VoiceHandler.ensure_voice_recorder_loaded at h
  repeat' split at h
  all_goals simp_all

theorem ensure_true_some (env : Env) (s : VoiceHandler)
    (h : ¬ (VoiceHandler.ensure_voice_recorder_loaded env s).2 = false) :
    (VoiceHandler.ensure_voice_recorder_loaded env s).1.voice_recorder.isSome = true := by
  unfold VoiceHandler.ensure_voice_recorder_loaded at *
  repeat' split at h
  all_goals simp_all

theorem start_voice_recording_tail_frame (env : Env) (s : VoiceHandler) :
    (VoiceHandler.start_voice_recording env s).1.recording_tail_active =
      s.recording_tail_active := by
  unfold VoiceHandler.start_voice_recording
  dsimp only
  repeat' split
  all_goals simp_all [stop_voice_recording_tail_frame]
  all_goals exact (ensure_frame env _).1

theorem recorder_idle_congr {s t : VoiceHandler}
    (hm : t.recording_mode = s.recording_mode)
    (hr : t.voice_recorder = s.voice_recorder)
    (h : recorder_idle s) : recorder_idle t := by
  intro hrec r hrr
  exact h (hm.symm.trans hrec) r (hr.symm.trans hrr)

theorem recorder_idle_of_recording {s : VoiceHandler}
    (h : s.recording_mode = true) : recorder_idle s := by
  intro hm
  rw [h] at hm
  exact absurd hm (by simp)

theorem stop_recorder_idle (env : Env) (s : VoiceHandler) (h : recorder_idle s) :
    recorder_idle (VoiceHandler.stop_voice_recording env s).1 := by
  unfold recorder_idle at *
  unfold VoiceHandler.stop_voice_recording
  cases hv : s.voice_recorder <;> dsimp only <;> repeat' split
  all_goals intro hm r hr
  all_goals simp_all [VoiceRecorder.stop_recording_stopped]
  all_goals exact hr ▸ VoiceRecorder.stop_recording_stopped _

theorem start_recorder_idle (env : Env) (s : VoiceHandler) (h : recorder_idle s) :
    recorder_idle (VoiceHandler.start_voice_recording env s).1 := by
  have hens := (ensure_frame env { s with recording_mode := true }).2
  unfold VoiceHandler.start_voice_recording
  dsimp only
  repeat' split
  all_goals first
  | exact h
  | exact stop_recorder_idle env _ (recorder_idle_of_recording (by simp_all))
  | exact recorder_idle_of_recording (by simp_all)

theorem on_tab_press_mode_frame (cfg : VHConfig) (now : Int) (s : VoiceHandler) :
    (VoiceHandler.on_tab_press cfg now s).1.recording_mode = s.recording_mode ∧
    (VoiceHandler.on_tab_press cfg now s).1.voice_recorder = s.voice_recorder := by
  unfold VoiceHandler.on_tab_press
  dsimp only
  refine ⟨?_, ?_⟩ <;> (repeat' split) <;> simp

theorem on_tab_release_mode_frame (now : Int) (s : VoiceHandler) :
    (VoiceHandler.on_tab_release now s).1.recording_mode = s.recording_mode ∧
    (VoiceHandler.on_tab_release now s).1.voice_recorder = s.voice_recorder := by
  unfold VoiceHandler.on_tab_release
  refine ⟨?_, ?_⟩ <;> (repeat' split) <;> simp

theorem debounce_mode_frame (s : VoiceHandler) :
    (VoiceHandler.process_tab_release_after_debounce s).1.recording_mode =
      s.recording_mode ∧
    (VoiceHandler.process_tab_release_after_debounce s).1.voice_recorder =
      s.voice_recorder := by
  unfold VoiceHandler.process_tab_release_after_debounce
  refine ⟨?_, ?_⟩ <;> (repeat' split) <;> simp

theorem check_tab_hold_recorder_idle (env : Env) (s : VoiceHandler)
    (h : recorder_idle s) :
    recorder_idle (VoiceHandler.check_tab_hold env s).1 := by
  unfold VoiceHandler.check_tab_hold
  dsimp only
  split
  · exact h
  · exact start_recorder_idle env _ (recorder_idle_congr (by simp) (by simp) h)

theorem process_final_recorder_idle (env : Env) (s : VoiceHandler)
    (h : recorder_idle s) :
    recorder_idle (VoiceHandler.process_final_tab_release env s).1 := by
  unfold VoiceHandler.process_final_tab_release
  repeat' split
  all_goals first
  | exact h
  | exact stop_recorder_idle env _ h

theorem tail_recorder_idle (env : Env) (s : VoiceHandler) (h : recorder_idle s) :
    recorder_idle (VoiceHandler.stop_recording_tail env s).1 := by
  unfold VoiceHandler.stop_recording_tail
  repeat' split
  all_goals first
  | exact h
  | exact process_final_recorder_idle env _
      (recorder_idle_congr (by simp) (by simp) h)
  | exact recorder_idle_congr (by simp) (by simp) h

theorem immediate_recorder_idle (cfg : VHConfig) (env : Env) (now : Int)
    (s : VoiceHandler) (h : recorder_idle s) :
    recorder_idle (VoiceHandler.process_immediate_tab_release cfg env now s).1 := by
  unfold VoiceHandler.process_immediate_tab_release
  dsimp only
  repeat' split
  all_goals first
  | exact h
  | exact stop_recorder_idle env _ h

theorem bg_begin_recorder_idle (s : VoiceHandler) (h : recorder_idle s) :
    recorder_idle (VoiceHandler.start_voice_recorder_background_loading s) := by
  unfold VoiceHandler.start_voice_recorder_background_loading
  split
  · exact h
  · exact recorder_idle_congr (by simp) (by simp) h

theorem bg_end_recorder_idle (ok : Bool) (s : VoiceHandler) (h : recorder_idle s) :
    recorder_idle (VoiceHandler.voice_recorder_load_finish ok s) := by
  unfold VoiceHandler.voice_recorder_load_finish
  repeat' split
  · intro hm r hr
    simp at hr
    rw [← hr]
  · exact recorder_idle_congr (by simp) (by simp) h
  · exact h

theorem ts_load_recorder_idle (ok : Bool) (s : VoiceHandler) (h : recorder_idle s) :
    recorder_idle (VoiceHandler.transcription_load_finish ok s) := by
  unfold VoiceHandler.transcription_load_finish
  repeat' split
  all_goals first
  | exact h
  | exact recorder_idle_congr (by simp) (by simp) h

theorem ts_engine_recorder_idle (ok : Bool) (s : VoiceHandler) (h : recorder_idle s) :
    recorder_idle (VoiceHandler.transcription_engine_ready ok s) := by
  unfold VoiceHandler.transcription_engine_ready
  split
  all_goals first
  | exact h
  | exact recorder_idle_congr (by simp) (by simp) h

theorem reachable_recorder_idle {cfg : VHConfig} {s : VoiceHandler}
    (h : Reachable cfg s) : recorder_idle s := by
  induction h with
  | init =>
      intro hm r hr
      simp [VoiceHandler.init] at hr
  | tab_press now _ ih =>
      exact recorder_idle_congr (on_tab_press_mode_frame _ now _).1
        (on_tab_press_mode_frame _ now _).2 ih
  | tab_release now _ ih =>
      exact recorder_idle_congr (on_tab_release_mode_frame now _).1
        (on_tab_release_mode_frame now _).2 ih
  | hold_check env _ ih => exact check_tab_hold_recorder_idle env _ ih
  | debounce _ ih =>
      exact recorder_idle_congr (debounce_mode_frame _).1 (debounce_mode_frame _).2 ih
  | tail_timer env _ ih => exact tail_recorder_idle env _ ih
  | immediate env now _ ih => exact immediate_recorder_idle _ env now _ ih
  | start_rec env _ ih => exact start_recorder_idle env _ ih
  | stop_rec env _ ih => exact stop_recorder_idle env _ ih
  | bg_load_begin _ ih => exact bg_begin_recorder_idle _ ih
  | bg_load_end ok _ ih => exact bg_end_recorder_idle ok _ ih
  | ts_load_end ok _ ih => exact ts_load_recorder_idle ok _ ih
  | ts_engine_end ok _ ih => exact ts_engine_recorder_idle ok _ ih

theorem stop_no_audio (env : Env) (s : VoiceHandler)
    (hm : s.recording_mode = true)
    (hr : ∀ r, s.voice_recorder = some r →
      r.is_recording = false ∨ r.audio_data = []) :
    (VoiceHandler.stop_voice_recording env s).1.recording_mode = false ∧
    Ev.on_recording_stop ∈ (VoiceHandler.stop_voice_recording env s).2 := by
  unfold VoiceHandler.stop_voice_recording
  cases hv : s.voice_recorder
  · simp [hm, hv]
  · rename_i r0
    rcases hr r0 hv with hcase | hcase <;>
      · unfold VoiceRecorder.stop_recording
        repeat' split
        all_goals simp_all

/-! ### Claim theorems -/

/-- Claim C1, counterexample.  The spec invariant
`recording_tail_active ⇒ recording_mode ∧ ¬tab_physically_pressed` is not
preserved by every reachable transition: after press, hold, release and
debounce expiry (tail active), a re-press that falls outside the 100-unit
debounce window takes `on_tab_press`'s first-press branch, which never
clears the tail — leaving the tail active while the key is physically
pressed. -/
theorem tail_invariant_counterexample :
    c1_debounce.recording_tail_active = true ∧
    c1_repress.recording_tail_active = true ∧
    c1_repress.tab_physically_pressed = true := by
  decide

/-- Claim C1, amended: the invariant holds at tail establishment.
Starting from any state with the tail inactive, the only gesture
operation that can activate `recording_tail_active` is
`process_tab_release_after_debounce`, and in its post-state
`recording_mode = true` and `tab_physically_pressed = false`; the other
five gesture operations leave the tail inactive.  (Later operations need
not preserve the invariant, per the counterexample.) -/
theorem tail_invariant_at_establishment (cfg : VHConfig) (env : Env) (now : Int)
    (s : VoiceHandler) (h : s.recording_tail_active = false) :
    (VoiceHandler.on_tab_press cfg now s).1.recording_tail_active = false ∧
    (VoiceHandler.on_tab_release now s).1.recording_tail_active = false ∧
    (VoiceHandler.check_tab_hold env s).1.recording_tail_active = false ∧
    (VoiceHandler.stop_recording_tail env s).1.recording_tail_active = false ∧
    (VoiceHandler.process_immediate_tab_release cfg env now s).1.recording_tail_active = false ∧
    ((VoiceHandler.process_tab_release_after_debounce s).1.recording_tail_active = true →
      (VoiceHandler.process_tab_release_after_debounce s).1.recording_mode = true ∧
      (VoiceHandler.process_tab_release_after_debounce s).1.tab_physically_pressed = false) := by
  refine ⟨?_, ?_, ?_, ?_, ?_, ?_⟩
  · unfold VoiceHandler.on_tab_press
    dsimp only
    repeat' split
    all_goals simp_all
  · unfold VoiceHandler.on_tab_release
    repeat' split
    all_goals simp_all
  · unfold VoiceHandler.check_tab_hold
    dsimp only
    split
    · exact h
    · rw [start_voice_recording_tail_frame]
      simpa using h
  · unfold VoiceHandler.stop_recording_tail
    repeat' split
    · unfold VoiceHandler.process_final_tab_release
      repeat' split
      all_goals simp_all [stop_voice_recording_tail_frame]
    all_goals simp_all
  · unfold VoiceHandler.process_immediate_tab_release
    dsimp only
    repeat' split
    all_goals simp_all [stop_voice_recording_tail_frame]
  · unfold VoiceHandler.process_tab_release_after_debounce
    split
    · intro _
      simp_all
    · intro hcontra
      simp_all

/-- Claim C1 amended, witness at the initial state and concrete times. -/
theorem tail_invariant_at_establishment_witness :
    (VoiceHandler.on_tab_press cfg0 5 VoiceHandler.init).1.recording_tail_active = false ∧
    (VoiceHandler.on_tab_release 5 VoiceHandler.init).1.recording_tail_active = false ∧
    (VoiceHandler.check_tab_hold env0 VoiceHandler.init).1.recording_tail_active = false ∧
    (VoiceHandler.stop_recording_tail env0 VoiceHandler.init).1.recording_tail_active = false ∧
    (VoiceHandler.process_immediate_tab_release cfg0 env0 5 VoiceHandler.init).1.recording_tail_active = false ∧
    ((VoiceHandler.process_tab_release_after_debounce VoiceHandler.init).1.recording_tail_active = true →
      (VoiceHandler.process_tab_release_after_debounce VoiceHandler.init).1.recording_mode = true ∧
      (VoiceHandler.process_tab_release_after_debounce VoiceHandler.init).1.tab_physically_pressed = false) :=
  tail_invariant_at_establishment cfg0 env0 5 VoiceHandler.init rfl

/-- Claim C2: a release below the hold threshold of a press that was
never consumed as a hold, with recording never started, makes
`process_immediate_tab_release` answer `insert_tab`, leave the state
untouched, and perform no side effect (no recorder call, no
recording-related callback). -/
theorem quick_tap_inserts_tab (cfg : VHConfig) (env : Env) (now t : Int)
    (s : VoiceHandler) (hpt : s.tab_press_time = some t) (ht : ¬ t = 0)
    (hrec : s.recording_mode = false) (hcons : s.tab_consumed_as_hold = false)
    (hdur : now - t < cfg.tab_hold_threshold) :
    VoiceHandler.process_immediate_tab_release cfg env now s =
      (s, "insert_tab", []) := by
  unfold VoiceHandler.process_immediate_tab_release
  simp [truthy, hpt, ht, hrec, hcons, hdur]

/-- Claim C2, witness: press recorded at t=10, release processed at
t=50, threshold 200. -/
theorem quick_tap_inserts_tab_witness :
    (tap_state.tab_press_time = some 10 ∧ tap_state.recording_mode = false ∧
      tap_state.tab_consumed_as_hold = false ∧
      (50 : Int) - 10 < cfg0.tab_hold_threshold) ∧
    VoiceHandler.process_immediate_tab_release cfg0 env0 50 tap_state =
      (tap_state, "insert_tab", []) :=
  ⟨⟨rfl, rfl, rfl, by decide⟩,
   quick_tap_inserts_tab cfg0 env0 50 10 tap_state rfl (by decide) rfl rfl (by decide)⟩

/-- Claim C3: `transcribe_async` on a service whose engine is not ready,
with the error callback registered, produces exactly one error callback
invocation carrying "Transcription engine not initialized", fires
neither the start nor the complete callback, and launches no background
transcription thread — the request is neither queued nor dropped
silently. -/
theorem transcribe_async_not_ready_errors (cbs : TSCbs)
    (engine : List Int → Int → Except String String) (audio : List Int)
    (sample_rate : Int) (he : cbs.hasError = true) :
    transcribe_async false cbs engine audio sample_rate =
      (false, [TSEv.error "Transcription engine not initialized"]) := by
  simp [transcribe_async, he]

/-- Claim C3, witness at concrete samples and sample rate. -/
theorem transcribe_async_not_ready_errors_witness :
    TSCbs.hasError { hasStart := true, hasComplete := true, hasError := true } = true ∧
    transcribe_async false { hasStart := true, hasComplete := true, hasError := true }
        (fun _ _ => Except.ok "hello") [1, 2] 16000 =
      (false, [TSEv.error "Transcription engine not initialized"]) :=
  ⟨rfl, transcribe_async_not_ready_errors _ _ _ _ rfl⟩

/-- Claim C4, counterexample: for an accepted request with all three
callbacks registered and a successful engine, `_transcribe_audio` fires
the start callback AND the complete callback — two invocations out of
the set {start, complete, error}, not exactly one. -/
theorem transcription_start_and_complete_both_fire :
    (transcribe_async true { hasStart := true, hasComplete := true, hasError := true }
        (fun _ _ => Except.ok "hello") [1] 16000).2 =
      [TSEv.start, TSEv.complete "hello"] ∧
    ¬ (transcribe_async true { hasStart := true, hasComplete := true, hasError := true }
        (fun _ _ => Except.ok "hello") [1] 16000).2.length = 1 := by
  decide

/-- Claim C4, amended: for every request accepted by a ready service with
the complete and error callbacks registered, exactly one terminal
callback (complete or error) fires, preceded by the start callback
exactly when it is registered; no partial results are delivered. -/
theorem transcription_exactly_one_terminal_callback (cbs : TSCbs)
    (engine : List Int → Int → Except String String) (audio : List Int)
    (sample_rate : Int) (hc : cbs.hasComplete = true) (he : cbs.hasError = true) :
    ((transcribe_async true cbs engine audio sample_rate).2.filter
        TSEv.terminal).length = 1 ∧
    ((transcribe_async true cbs engine audio sample_rate).2.filter
        fun e => ! TSEv.terminal e).length = if cbs.hasStart then 1 else 0 := by
  cases hE : engine audio sample_rate <;> cases hS : cbs.hasStart <;>
    simp [transcribe_async, transcribe_audio, hE, hS, hc, he, TSEv.terminal]

/-- Claim C4 amended, witness with a failing engine. -/
theorem transcription_exactly_one_terminal_callback_witness :
    ((transcribe_async true { hasStart := true, hasComplete := true, hasError := true }
        (fun _ _ => Except.error "boom") [1] 16000).2.filter
        TSEv.terminal).length = 1 ∧
    ((transcribe_async true { hasStart := true, hasComplete := true, hasError := true }
        (fun _ _ => Except.error "boom") [1] 16000).2.filter
        fun e => ! TSEv.terminal e).length =
      if TSCbs.hasStart { hasStart := true, hasComplete := true, hasError := true }
      then 1 else 0 :=
  transcription_exactly_one_terminal_callback _ _ _ _ rfl rfl

/-- Claim C5: from any reachable handler state, whenever
`start_voice_recording` returns false — the recorder was unavailable or
failed to start — the handler has already unwound to idle:
`recording_mode` is false afterwards and the `on_recording_stop`
notification was issued, exactly as if recording had stopped with zero
audio.  (No exception propagates: the operation is a total function.) -/
theorem start_failure_unwinds_to_idle (cfg : VHConfig) (env : Env)
    (s : VoiceHandler) (hs : Reachable cfg s)
    (hfail : (VoiceHandler.start_voice_recording env s).2.1 = false) :
    (VoiceHandler.start_voice_recording env s).1.recording_mode = false ∧
    Ev.on_recording_stop ∈ (VoiceHandler.start_voice_recording env s).2.2 := by
  have hidle := reachable_recorder_idle hs
  revert hfail
  unfold VoiceHandler.start_voice_recording
  dsimp only
  repeat' split
  -- recording already active: returns true, hypothesis is absurd
  case isTrue => intro hfail; simp at hfail
  -- recorder unavailable: unwind through stop_voice_recording with no recorder
  case isFalse.isTrue hmode hens =>
    intro _
    have hnone := ensure_false_none env _ hens
    have hmode2 := (ensure_frame env { s with recording_mode := true }).2
    simp only [] at hmode2
    have hh := stop_no_audio env
      (VoiceHandler.ensure_voice_recorder_loaded env { s with recording_mode := true }).1
      (by simp_all) (by intro r hr; rw [hnone] at hr; exact absurd hr (by simp))
    refine ⟨hh.1, ?_⟩
    have hmem := hh.2
    simp only [List.mem_cons, List.mem_append] at hmem ⊢
    tauto
  -- recorder start failed: unwind with an empty, stopped recorder
  case isFalse.isFalse.h_1.isTrue hmode hens r heq hrfail =>
    intro _
    have hmode2 := (ensure_frame env { s with recording_mode := true }).2
    have hr0 : r.is_recording = false := by
      rcases ensure_some_cases env _ r heq with hcase | hcase
      · have : s.recording_mode = false := by simp_all
        exact hidle this r (by simpa using hcase)
      · rw [hcase]
    have hstate := VoiceRecorder.start_recording_fail_state
      env.recorder_start_raises r hr0 hrfail
    have hh := stop_no_audio env
      { (VoiceHandler.ensure_voice_recorder_loaded env { s with recording_mode := true }).1 with
          voice_recorder := some (VoiceRecorder.start_recording env.recorder_start_raises r).1 }
      (by simp_all) (by
        intro r2 hr2
        simp only [] at hr2
        rw [hstate] at hr2
        left
        simp at hr2
        rw [← hr2])
    refine ⟨hh.1, ?_⟩
    have hmem := hh.2
    simp only [List.mem_cons, List.mem_append] at hmem ⊢
    tauto
  -- recorder started: returns true, hypothesis is absurd
  case isFalse.isFalse.h_1.isFalse => intro hfail; simp at hfail
  -- dead branch: ensure returned true, so a recorder is present
  case isFalse.isFalse.h_2 hens hopt heq =>
    intro _
    exact absurd (ensure_true_some env _ hens) (by simp [heq])

/-- Claim C5, witness: on a fresh handler whose recorder fails to load,
`start_voice_recording` returns false, leaves `recording_mode` false and
issues `on_recording_stop`. -/
theorem start_failure_unwinds_to_idle_witness :
    (VoiceHandler.start_voice_recording envFail VoiceHandler.init).2.1 = false ∧
    (VoiceHandler.start_voice_recording envFail VoiceHandler.init).1.recording_mode = false ∧
    Ev.on_recording_stop ∈
      (VoiceHandler.start_voice_recording envFail VoiceHandler.init).2.2 :=
  ⟨by decide,
   start_failure_unwinds_to_idle cfg0 envFail VoiceHandler.init Reachable.init
     (by decide)⟩

/-- Claim C6, counterexample: with the key already physically pressed but
`tab_release_time` still inside the debounce window (press at t=10,
release at t=50, re-press at t=90, repeat event at t=120), a further
`on_tab_press` returns `continue_hold`, not the ignore-repeat action the
claim requires for every pressed state. -/
theorem repeat_press_in_debounce_not_ignored :
    c6_repress.tab_physically_pressed = true ∧
    (VoiceHandler.on_tab_press cfg0 120 c6_repress).2.1.2 = "continue_hold" ∧
    ¬ (VoiceHandler.on_tab_press cfg0 120 c6_repress).2.1.2 = "ignore_repeat" := by
  decide

/-- Claim C6, amended: while the key is physically pressed and the press
does not fall inside the release-debounce window, `on_tab_press` is a
pure no-op: it returns `ignore_repeat`, leaves every field of the state
unchanged, starts no timing and fires no callback. -/
theorem repeat_press_ignored_outside_debounce (cfg : VHConfig) (now : Int)
    (s : VoiceHandler) (hp : s.tab_physically_pressed = true)
    (hdeb : ¬ (truthy s.tab_release_time = true ∧
      now - s.tab_release_time.getD 0 < cfg.release_debounce_time)) :
    VoiceHandler.on_tab_press cfg now s = (s, (true, "ignore_repeat"), []) := by
  unfold VoiceHandler.on_tab_press
  rw [if_neg hdeb, if_neg (by simp [hp])]

/-- Claim C6 amended, witness: a pressed state with no release recorded. -/
theorem repeat_press_ignored_outside_debounce_witness :
    pressed_state.tab_physically_pressed = true ∧
    VoiceHandler.on_tab_press cfg0 5 pressed_state =
      (pressed_state, (true, "ignore_repeat"), []) :=
  ⟨rfl, repeat_press_ignored_outside_debounce cfg0 5 pressed_state rfl (by decide)⟩

/-- Claim C7: `start_voice_recording` while already in recording mode is
idempotent — it returns true, changes nothing, starts no second capture
and fires no duplicate callback. -/
theorem start_voice_recording_idempotent (env : Env) (s : VoiceHandler)
    (h : s.recording_mode = true) :
    VoiceHandler.start_voice_recording env s = (s, true, []) := by
  unfold VoiceHandler.start_voice_recording
  simp [h]

/-- Claim C7, witness. -/
theorem start_voice_recording_idempotent_witness :
    recording_state.recording_mode = true ∧
    VoiceHandler.start_voice_recording env0 recording_state =
      (recording_state, true, []) :=
  ⟨rfl, start_voice_recording_idempotent env0 recording_state rfl⟩

/-- Claim C8, counterexample: stopping a recording recorder with chunks
`[[1], [2]]` returns the concatenation `[1, 2]`, but the internal chunk
buffer is NOT reset to empty — `stop_recording` leaves it in place (it
is cleared only by the next `start_recording`). -/
theorem stop_recording_keeps_buffer :
    (VoiceRecorder.stop_recording
        { is_recording := true, audio_data := [[1], [2]] }).2.1 = some [1, 2] ∧
    ¬ (VoiceRecorder.stop_recording
        { is_recording := true, audio_data := [[1], [2]] }).1.audio_data = [] := by
  decide

/-- Claim C8, amended: `stop_recording` while recording returns the
concatenation of the accumulated chunks (`none` when no chunk was
captured); the internal buffer is left unchanged by the stop and is
reset to empty by the next `start_recording`. -/
theorem stop_recording_returns_concatenation (r : VoiceRecorder)
    (h : r.is_recording = true) :
    (VoiceRecorder.stop_recording r).2.1 =
      (if r.audio_data = [] then none else some r.audio_data.flatten) ∧
    (VoiceRecorder.stop_recording r).1.audio_data = r.audio_data ∧
    (VoiceRecorder.start_recording false
        (VoiceRecorder.stop_recording r).1).1.audio_data = [] := by
  simp [VoiceRecorder.stop_recording, VoiceRecorder.start_recording, h]

/-- Claim C8 amended, witness. -/
theorem stop_recording_returns_concatenation_witness :
    (VoiceRecorder.stop_recording
        { is_recording := true, audio_data := [[3], [4, 5]] }).2.1 =
      (if ([[3], [4, 5]] : List (List Int)) = [] then none
       else some ([[3], [4, 5]] : List (List Int)).flatten) ∧
    (VoiceRecorder.stop_recording
        { is_recording := true, audio_data := [[3], [4, 5]] }).1.audio_data =
      [[3], [4, 5]] ∧
    (VoiceRecorder.start_recording false
        (VoiceRecorder.stop_recording
          { is_recording := true, audio_data := [[3], [4, 5]] }).1).1.audio_data = [] :=
  stop_recording_returns_concatenation
    { is_recording := true, audio_data := [[3], [4, 5]] } rfl

/-- Claim C9 (implicit): readiness is reported from the mere existence of
the service object.  With the service present but its engine not ready,
`is_transcription_ready` is true and `get_transcription_status` is
"ready"; stopping a recording with non-empty audio then fires the
handler's own `on_transcription_start` and hands the audio to
`transcribe_async`, which delivers the
"Transcription engine not initialized" error callback — the
"still loading, please try again" message never fires. -/
theorem ready_status_before_engine_ready (env : Env) (s : VoiceHandler)
    (ts : TranscriptionService) (r : VoiceRecorder)
    (hts : s.transcription_service = some ts) (hinit : ts.isInit = false)
    (hrec : s.recording_mode = true) (hvr : s.voice_recorder = some r)
    (hr : r.is_recording = true) (ha : ¬ r.audio_data.flatten = []) :
    VoiceHandler.is_transcription_ready s = true ∧
    VoiceHandler.get_transcription_status s = "ready" ∧
    Ev.on_transcription_start ∈ (VoiceHandler.stop_voice_recording env s).2 ∧
    Ev.on_transcription_error "Transcription engine not initialized" ∈
      (VoiceHandler.stop_voice_recording env s).2 ∧
    Ev.on_transcription_error
        "Transcription service still loading, please try again in a moment" ∉
      (VoiceHandler.stop_voice_recording env s).2 := by
  have hdata : ¬ r.audio_data = [] := by
    intro hempty
    rw [hempty] at ha
    exact ha rfl
  refine ⟨by simp [VoiceHandler.is_transcription_ready, hts],
          by simp [VoiceHandler.get_transcription_status, hts], ?_, ?_, ?_⟩ <;>
  · unfold VoiceHandler.stop_voice_recording
    simp [hrec, hvr, VoiceRecorder.stop_recording, hr, hdata, ha, hts, hinit,
          transcribe_async, relay_ts_event]

/-- Claim C9, witness on a concrete recording handler whose engine has
not finished loading. -/
theorem ready_status_before_engine_ready_witness :
    VoiceHandler.is_transcription_ready not_ready_state = true ∧
    VoiceHandler.get_transcription_status not_ready_state = "ready" ∧
    Ev.on_transcription_start ∈
      (VoiceHandler.stop_voice_recording env0 not_ready_state).2 ∧
    Ev.on_transcription_error "Transcription engine not initialized" ∈
      (VoiceHandler.stop_voice_recording env0 not_ready_state).2 ∧
    Ev.on_transcription_error
        "Transcription service still loading, please try again in a moment" ∉
      (VoiceHandler.stop_voice_recording env0 not_ready_state).2 :=
  ready_status_before_engine_ready env0 not_ready_state
    { isInit := false } { is_recording := true, audio_data := [[5, 6]] }
    rfl rfl rfl rfl rfl (by decide)

/-- Claim C10 (implicit): `VoiceRecorder.start_recording` while already
recording returns false and does nothing — the buffer is not cleared, no
capture thread is spawned, no callback fires; the recorder-level false
thus has the opposite polarity of the orchestrator's
success-as-already-active convention. -/
theorem recorder_start_while_recording_rejected (raises : Bool)
    (r : VoiceRecorder) (h : r.is_recording = true) :
    VoiceRecorder.start_recording raises r = (r, false, []) := by
  simp [VoiceRecorder.start_recording, h]

/-- Claim C10, witness. -/
theorem recorder_start_while_recording_rejected_witness :
    VoiceRecorder.is_recording { is_recording := true, audio_data := [[7]] } = true ∧
    VoiceRecorder.start_recording false { is_recording := true, audio_data := [[7]] } =
      ({ is_recording := true, audio_data := [[7]] }, false, []) :=
  ⟨rfl, recorder_start_while_recording_rejected false
    { is_recording := true, audio_data := [[7]] } rfl⟩

end Quip
